import Mathlib

/-!
Verification of the frontend semantic-matching utility of the LegalAI
repository (`legal-ai-frontend/src/utils/semanticMatcher.js`) and of the
clause-location step component that calls it.

The JavaScript code is shallowly embedded: the fallible network calls
(`fetch` + `response.json()`) are modelled by an explicit outcome value
(`none` / `failure` = the request failed, was non-ok, or the body did not
parse; `some r` / `success r` = the parsed JSON body), and the pure parts
of the code (the `catch`-branch fallback objects, `getConfidenceStyling`,
`generateSuggestions`, the component's effect guard) are translated
directly into total Lean functions.  JavaScript strings are modelled as
Lean strings; `String.prototype.split` and `Array.prototype.join` are
given their ECMAScript semantics on the character list.
-/

namespace LegalAI

/-- ECMAScript semantics of `s.split(sep)` for a single-character
separator, on the character list: splitting `[]` yields one empty field,
and each occurrence of the separator starts a new field (so consecutive
separators and leading/trailing separators produce empty fields, exactly
as in JavaScript). -/
def splitOnChar (sep : Char) : List Char → List (List Char)
  | [] => [[]]
  | c :: cs =>
    if c = sep then [] :: splitOnChar sep cs
    else
      match splitOnChar sep cs with
      | [] => [[c]]
      | t :: ts => (c :: t) :: ts

/-- `query.split(' ')` of the JavaScript source, as a function on Lean
strings. -/
def jsSplitOnSpace (s : String) : List String :=
  (splitOnChar ' ' s.data).map String.mk

/-- ECMAScript semantics of `arr.join(sep)`. -/
def jsJoin (sep : String) : List String → String
  | [] => ""
  | [x] => x
  | x :: y :: xs => x ++ sep ++ jsJoin sep (y :: xs)

/-- The `QueryAnalysis` object shape produced by
`SemanticMatcher.analyzeQuery` (all fields of the fallback object in the
`catch` branch; a successful backend response is assumed to populate the
same shape). -/
structure QueryAnalysis where
  original_query : String
  keywords : List String
  synonyms : List String
  expanded_terms : List String
  intent : String
  legal_entities : List String
deriving DecidableEq, Repr

/-- The fallback analysis built in the `catch` branch of
`SemanticMatcher.analyzeQuery`:
`{ original_query: query, keywords: query.split(' ').filter(w => w.length > 2),
   synonyms: [], expanded_terms: [], intent: 'general', legal_entities: [] }`. -/
def analyzeQueryFallback (query : String) : QueryAnalysis :=
  { original_query := query
    keywords := (jsSplitOnSpace query).filter (fun word => word.length > 2)
    synonyms := []
    expanded_terms := []
    intent := "general"
    legal_entities := [] }

/-- `SemanticMatcher.analyzeQuery`, with the backend interaction made
explicit: `backend = some r` is a fetch that resolved with an ok response
whose JSON body parsed to `r`; `backend = none` is every failure mode
(rejected fetch, `!response.ok`, or an unparsable body), all of which the
source funnels into the single `catch` branch. -/
def analyzeQuery (backend : Option QueryAnalysis) (query : String) : QueryAnalysis :=
  match backend with
  | some r => r
  | none => analyzeQueryFallback query

/-- A clause record as passed by the frontend to `semanticSearch`
(`{ title, text }`). -/
structure Clause where
  title : String
  text : String
deriving DecidableEq, Repr

/-- The trimmed analysis object embedded in the `semanticSearch` fallback
result (`query_analysis` has only these three fields there). -/
structure SearchQueryAnalysis where
  original_query : String
  keywords : List String
  intent : String
deriving DecidableEq, Repr

/-- The result object shape returned by `SemanticMatcher.semanticSearch`.
Matches and segments are backend-produced JSON values; only their list
structure matters for the fallback path, so they are kept abstract as
lists over type parameters in `SearchResult`. -/
structure SearchResult (M S : Type) where
  query : String
  «matches» : List M
  segments : List S
  query_analysis : SearchQueryAnalysis

/-- The fallback result built in the `catch` branch of
`SemanticMatcher.semanticSearch`:
`{ query, matches: [], segments: [], query_analysis: { original_query: query,
   keywords: query.split(' ').filter(w => w.length > 2), intent: 'general' } }`. -/
def semanticSearchFallback (M S : Type) (query : String) : SearchResult M S :=
  { query := query
    «matches» := []
    segments := []
    query_analysis :=
      { original_query := query
        keywords := (jsSplitOnSpace query).filter (fun word => word.length > 2)
        intent := "general" } }

/-- `SemanticMatcher.semanticSearch`, with the backend interaction made
explicit exactly as in `analyzeQuery`.  The `clauses` argument is
serialized into the request in the source and never touched by the
`catch` branch. -/
def semanticSearch (M S : Type) (backend : Option (SearchResult M S))
    (query : String) (clauses : List Clause) : SearchResult M S :=
  match backend, clauses with
  | some r, _ => r
  | none, _ => semanticSearchFallback M S query

/-- The styling object returned by `SemanticMatcher.getConfidenceStyling`. -/
structure ConfidenceStyle where
  color : String
  bgColor : String
  borderColor : String
  icon : String
  label : String
deriving DecidableEq, Repr

/-- The `styles.high` object of `getConfidenceStyling`. -/
def highStyle : ConfidenceStyle :=
  { color := "text-green-400"
    bgColor := "bg-green-500/20"
    borderColor := "border-green-500/30"
    icon := "✓"
    label := "High Confidence" }

/-- The `styles.medium` object of `getConfidenceStyling`. -/
def mediumStyle : ConfidenceStyle :=
  { color := "text-yellow-400"
    bgColor := "bg-yellow-500/20"
    borderColor := "border-yellow-500/30"
    icon := "⚠"
    label := "Medium Confidence" }

/-- The `styles.low` object of `getConfidenceStyling`. -/
def lowStyle : ConfidenceStyle :=
  { color := "text-orange-400"
    bgColor := "bg-orange-500/20"
    borderColor := "border-orange-500/30"
    icon := "?"
    label := "Low Confidence" }

/-- A value the lookup `styles[confidence]` can produce in JavaScript:
one of the three own styling objects, or a value inherited from
`Object.prototype` (a function, or for `__proto__` the prototype object
itself — in every case truthy). -/
inductive StylingValue where
  | style (s : ConfidenceStyle) : StylingValue
  | inherited (name : String) : StylingValue
deriving DecidableEq, Repr

/-- The property names an object literal inherits from
`Object.prototype` (ES2015 §19.1.3, with the Annex B legacy accessors):
every one of them is function-valued or object-valued, hence truthy. -/
def objectPrototypeKeys : List String :=
  ["constructor", "hasOwnProperty", "isPrototypeOf",
   "propertyIsEnumerable", "toLocaleString", "toString", "valueOf",
   "__proto__", "__defineGetter__", "__defineSetter__",
   "__lookupGetter__", "__lookupSetter__"]

/-- JavaScript property lookup `styles[key]` on the `styles` object
literal of `getConfidenceStyling`: the three own properties first, then
the prototype chain (`Object.prototype`); `none` models `undefined`. -/
def stylesLookup (key : String) : Option StylingValue :=
  if key = "high" then some (StylingValue.style highStyle)
  else if key = "medium" then some (StylingValue.style mediumStyle)
  else if key = "low" then some (StylingValue.style lowStyle)
  else if key ∈ objectPrototypeKeys then some (StylingValue.inherited key)
  else none

/-- ECMAScript coercion of the bracket index to a property key:
`undefined` (modelled as `none`) becomes the string `"undefined"`. -/
def jsPropertyKey : Option String → String
  | none => "undefined"
  | some s => s

/-- `SemanticMatcher.getConfidenceStyling`: `styles[confidence] || styles.low`.
Every value present on the lookup chain is an object or function, hence
truthy, so `||` returns it unchanged; only an absent property
(`undefined`, falsy) falls through to `styles.low`. -/
def getConfidenceStyling (confidence : Option String) : StylingValue :=
  match stylesLookup (jsPropertyKey confidence) with
  | some v => v
  | none => StylingValue.style lowStyle

/-- The intent-keyed `switch` block of `SemanticMatcher.generateSuggestions`:
the list of suggestions it pushes (one for the five named intents,
nothing for any other value, `default` case absent in the source). -/
def intentSuggestions (intent : String) : List String :=
  if intent = "location" then
    ["Try searching for specific clause titles or section numbers"]
  else if intent = "explanation" then
    ["Try asking \"What does [specific term] mean?\""]
  else if intent = "responsibility" then
    ["Try searching for \"liability\", \"responsibility\", or \"obligation\""]
  else if intent = "timing" then
    ["Try searching for \"deadline\", \"expiration\", or \"time period\""]
  else if intent = "process" then
    ["Try searching for \"procedure\", \"steps\", or \"how to\""]
  else []

/-- `SemanticMatcher.generateSuggestions`: pushes a "more specific"
suggestion when `analysis.keywords.length < 3`, an `Also try: ...`
suggestion when `analysis.synonyms.length > 0` (joining the first three
synonyms with `', '`), then the intent-specific suggestion, and returns
`suggestions.slice(0, 3)`. -/
def generateSuggestions (analysis : QueryAnalysis) : List String :=
  let s1 := if analysis.keywords.length < 3
    then ["Try using more specific keywords"] else []
  let s2 := if analysis.synonyms.length > 0
    then ["Also try: " ++ jsJoin ", " (analysis.synonyms.take 3)] else []
  (s1 ++ s2 ++ intentSuggestions analysis.intent).take 3

/-- The outcome of the `/health/` probe in `SemanticMatcher.isAvailable`:
`failure` covers a rejected `fetch` or a `response.json()` that throws
(both reach the `catch` branch); `success d` is a parsed body, whose
`semantic_matcher` field is `none` when absent. -/
inductive HealthOutcome where
  | failure : HealthOutcome
  | success (semantic_matcher : Option String) : HealthOutcome
deriving DecidableEq, Repr

/-- `SemanticMatcher.isAvailable`:
returns `data.semantic_matcher === 'available'` on a parsed body
(`undefined === 'available'` is `false` when the field is missing, and
any other value compares unequal), and `false` from the `catch` branch. -/
def isAvailable : HealthOutcome → Bool
  | .failure => false
  | .success sm => sm == some "available"

/-- The backend calls the `ClauseLocationStep` query-analysis effect can
issue. -/
inductive BackendCall where
  | analyzeCall (query : String) : BackendCall
  | searchCall (query : String) (clauses : List Clause) : BackendCall
deriving DecidableEq, Repr

/-- The query-analysis `useEffect` of `ClauseLocationStep`, as the list of
backend calls it schedules: the debounced body runs only under
`if (highlightingQuery && highlightingQuery.length > 3)` (a string is
truthy exactly when non-empty), calls `analyzeQuery`, and additionally
calls `semanticSearch` under `if (clauses && clauses.length > 0)`. -/
def clauseLocationAnalysisCalls (highlightingQuery : String)
    (clauses : List Clause) : List BackendCall :=
  if highlightingQuery ≠ "" ∧ highlightingQuery.length > 3 then
    BackendCall.analyzeCall highlightingQuery ::
      (if clauses.length > 0
        then [BackendCall.searchCall highlightingQuery clauses] else [])
  else []

/-- Splitting a character list at every character satisfying `p`
(empty fields kept), companion to `splitOnChar`. -/
def splitOnPred (p : Char → Bool) : List Char → List (List Char)
  | [] => [[]]
  | c :: cs =>
    if p c then [] :: splitOnPred p cs
    else
      match splitOnPred p cs with
      | [] => [[c]]
      | t :: ts => (c :: t) :: ts

/-- The spec-side notion of the whitespace-separated tokens of a query:
the maximal non-empty runs of non-whitespace characters.  This follows
the specification's words ("tokens ... present in the query",
"whitespace-only"), for comparison against the source's
space-character split. -/
def whitespaceTokens (s : String) : List String :=
  ((splitOnPred Char.isWhitespace s.data).map String.mk).filter
    (fun t => t ≠ "")

/-! ## Helper lemmas -/

/-- Every field produced by splitting an all-separator character list is
empty. -/
theorem splitOnChar_fields_nil {l : List Char} (h : ∀ c ∈ l, c = ' ') :
    ∀ t ∈ splitOnChar ' ' l, t = [] := by
  induction l with
  | nil =>
    intro t ht
    simp only [splitOnChar, List.mem_singleton] at ht
    exact ht
  | cons c cs ih =>
    intro t ht
    have hc : c = ' ' := h c (List.mem_cons_self c cs)
    have hcs : ∀ x ∈ cs, x = ' ' := fun x hx => h x (List.mem_cons_of_mem c hx)
    simp only [splitOnChar, if_pos hc, List.mem_cons] at ht
    rcases ht with ht | ht
    · exact ht
    · exact ih hcs t ht

/-- Two strings with different first characters are different. -/
theorem ne_of_head_ne {a b : String} (h : a.data.head? ≠ b.data.head?) :
    a ≠ b :=
  fun he => h (he ▸ rfl)

/-- An `Also try: ...` suggestion always starts with `'A'`. -/
theorem alsoTry_head (rest : String) :
    ("Also try: " ++ rest).data.head? = some 'A' := by
  obtain ⟨l⟩ := rest
  rfl

/-- An `Also try: ...` suggestion never coincides with a string starting
with `'T'`. -/
theorem alsoTry_ne_of_head_T (rest t : String)
    (h : t.data.head? = some 'T') : "Also try: " ++ rest ≠ t :=
  ne_of_head_ne (by rw [alsoTry_head rest, h]; decide)

/-- The intent-keyed `switch` pushes at most one suggestion. -/
theorem intentSuggestions_length_le (intent : String) :
    (intentSuggestions intent).length ≤ 1 := by
  unfold intentSuggestions
  split_ifs <;> decide

/-- The "more specific" suggestion is not among the intent-keyed ones. -/
theorem moreSpecific_not_mem_intentSuggestions (intent : String) :
    "Try using more specific keywords" ∉ intentSuggestions intent := by
  unfold intentSuggestions
  split_ifs <;> decide

/-- An `Also try: ...` suggestion is not among the intent-keyed ones. -/
theorem alsoTry_not_mem_intentSuggestions (rest intent : String) :
    "Also try: " ++ rest ∉ intentSuggestions intent := by
  unfold intentSuggestions
  split_ifs <;> simp only [List.mem_singleton, List.not_mem_nil,
    not_false_iff] <;>
    exact alsoTry_ne_of_head_T rest _ (by decide)

/-- `generateSuggestions` in fully expanded form: the `slice(0, 3)` never
truncates, because each of the three suggestion sources contributes at
most one string. -/
theorem generateSuggestions_eq (analysis : QueryAnalysis) :
    generateSuggestions analysis =
      (if analysis.keywords.length < 3
        then ["Try using more specific keywords"] else []) ++
      (if analysis.synonyms.length > 0
        then ["Also try: " ++ jsJoin ", " (analysis.synonyms.take 3)]
        else []) ++
      intentSuggestions analysis.intent := by
  unfold generateSuggestions
  apply List.take_of_length_le
  have h3 := intentSuggestions_length_le analysis.intent
  simp only [List.length_append]
  split_ifs <;> simp only [List.length_singleton, List.length_nil] <;> omega

/-! ## Claims -/

/-- C1: for every query string and every clause list, when the backend
request fails (`backend = none`: non-ok response, rejected fetch, or
unparsable body), `semanticSearch` returns a result whose `matches` and
`segments` are the empty list and whose `query_analysis` echoes the
original query; being a total function of the outcome, it propagates no
exception to the caller. -/
theorem semanticSearch_failure_empty (M S : Type) (query : String)
    (clauses : List Clause) :
    (semanticSearch M S none query clauses).matches = [] ∧
    (semanticSearch M S none query clauses).segments = [] ∧
    (semanticSearch M S none query clauses).query_analysis.original_query
      = query :=
  ⟨rfl, rfl, rfl⟩

/-- C2 (counterexample): the claim fails for a query made only of
whitespace characters that are not the space character.  The query of
three tab characters is whitespace-only, yet the degraded-mode analysis
has `keywords = ["\t\t\t"]`, because `query.split(' ')` splits only at
`' '` and the three-character tab run passes the `length > 2` filter. -/
theorem analyzeQueryFallback_tabs_counterexample :
    (∀ c ∈ ("\t\t\t" : String).data, c.isWhitespace) ∧
      (analyzeQueryFallback "\t\t\t").keywords = ["\t\t\t"] := by
  constructor
  · decide
  · decide

/-- C2 (amended): for every query that is empty or consists only of
space characters (U+0020), the degraded-mode analysis produced by the
`catch` branch of `analyzeQuery` has empty `keywords`, empty `synonyms`,
and intent `'general'`; no error is raised (the fallback is a total
function). -/
theorem analyzeQueryFallback_spaceOnly (query : String)
    (h : ∀ c ∈ query.data, c = ' ') :
    (analyzeQueryFallback query).keywords = [] ∧
    (analyzeQueryFallback query).synonyms = [] ∧
    (analyzeQueryFallback query).intent = "general" := by
  refine ⟨?_, rfl, rfl⟩
  show ((jsSplitOnSpace query).filter (fun word => word.length > 2)) = []
  apply List.filter_eq_nil_iff.mpr
  intro a ha
  rcases List.mem_map.mp ha with ⟨t, ht, rfl⟩
  have hnil : t = [] := splitOnChar_fields_nil h t ht
  subst hnil
  decide

/-- C2 witness: the theorem applied to the two-space query. -/
theorem analyzeQueryFallback_spaceOnly_witness :
    (analyzeQueryFallback "  ").keywords = [] ∧
    (analyzeQueryFallback "  ").synonyms = [] ∧
    (analyzeQueryFallback "  ").intent = "general" :=
  analyzeQueryFallback_spaceOnly "  " (by decide)

/-- C3 (counterexample): the claim fails for the query `"ab\tcd"`: the
degraded-mode keywords contain `"ab\tcd"` (no space character occurs, so
`split(' ')` keeps the whole query as one token of length 5), but
`"ab\tcd"` is not a whitespace-separated token of the query — those are
`"ab"` and `"cd"`. -/
theorem analyzeQueryFallback_keywords_counterexample :
    "ab\tcd" ∈ (analyzeQueryFallback "ab\tcd").keywords ∧
      "ab\tcd" ∉ whitespaceTokens "ab\tcd" := by
  constructor
  · decide
  · decide

/-- C3 (amended): for every non-empty query, the degraded-mode analysis
is a (non-null, totally defined) `QueryAnalysis` whose keywords are all
of length at least 3 and occur verbatim among the space-separated
(split at `' '`) tokens of the query. -/
theorem analyzeQueryFallback_keywords_sound (query : String)
    (_hq : query ≠ "") :
    ∀ k ∈ (analyzeQueryFallback query).keywords,
      3 ≤ k.length ∧ k ∈ jsSplitOnSpace query := by
  intro k hk
  have h := List.mem_filter.mp hk
  refine ⟨?_, h.1⟩
  have h2 : k.length > 2 := by simpa using h.2
  omega

/-- C3 witness: the theorem applied to the query `"abcd"`, whose single
keyword `"abcd"` has length 4 and is a space-separated token. -/
theorem analyzeQueryFallback_keywords_sound_witness :
    ("abcd" : String) ≠ "" ∧
      (3 ≤ ("abcd" : String).length ∧ "abcd" ∈ jsSplitOnSpace "abcd") :=
  ⟨by decide,
    analyzeQueryFallback_keywords_sound "abcd" (by decide) "abcd" (by decide)⟩

/-- C4: for every `QueryAnalysis`, `generateSuggestions` returns at most
3 suggestion strings (`suggestions.slice(0, 3)`). -/
theorem generateSuggestions_length_le_three (analysis : QueryAnalysis) :
    (generateSuggestions analysis).length ≤ 3 := by
  unfold generateSuggestions
  simp only [List.length_take]
  omega

/-- C5: the output of `generateSuggestions` contains the
`'Try using more specific keywords'` suggestion exactly when the
analysis has fewer than 3 keywords. -/
theorem generateSuggestions_moreSpecific_iff (analysis : QueryAnalysis) :
    "Try using more specific keywords" ∈ generateSuggestions analysis ↔
      analysis.keywords.length < 3 := by
  rw [generateSuggestions_eq]
  simp only [List.mem_append]
  constructor
  · rintro ((h | h) | h)
    · by_contra hk
      rw [if_neg hk] at h
      exact List.not_mem_nil _ h
    · exfalso
      split_ifs at h
      · exact alsoTry_ne_of_head_T _ _ (by decide)
          (List.mem_singleton.mp h).symm
      · exact List.not_mem_nil _ h
    · exact absurd h (moreSpecific_not_mem_intentSuggestions analysis.intent)
  · intro hk
    exact Or.inl (Or.inl (by rw [if_pos hk]; exact List.mem_singleton.mpr rfl))

/-- C6: whenever the analysis intent is `'location'`, the output of
`generateSuggestions` contains the clause-title/section-number
suggestion, whatever the keywords and synonyms are (the three suggestion
sources contribute at most one string each, so `slice(0, 3)` never drops
it). -/
theorem generateSuggestions_location (analysis : QueryAnalysis)
    (h : analysis.intent = "location") :
    "Try searching for specific clause titles or section numbers" ∈
      generateSuggestions analysis := by
  rw [generateSuggestions_eq]
  refine List.mem_append.mpr (Or.inr ?_)
  rw [h]
  unfold intentSuggestions
  simp

/-- C6 witness: a `location`-intent analysis with many keywords and
synonyms still receives the location suggestion. -/
theorem generateSuggestions_location_witness :
    "Try searching for specific clause titles or section numbers" ∈
      generateSuggestions
        ⟨"where is it", ["custody", "payment", "term", "breach"],
          ["guardianship", "care"], [], "location", []⟩ :=
  generateSuggestions_location
    ⟨"where is it", ["custody", "payment", "term", "breach"],
      ["guardianship", "care"], [], "location", []⟩ rfl

/-- C7: `isAvailable` is a total Boolean function of the probe outcome
(so it propagates no exception), and it returns `true` exactly when the
health endpoint responded with a parsable body whose `semantic_matcher`
field equals `'available'` — request failure, an unparsable body, a
missing field, and any other field value all yield `false`. -/
theorem isAvailable_iff (o : HealthOutcome) :
    isAvailable o = true ↔
      ∃ sm, o = HealthOutcome.success sm ∧ sm = some "available" := by
  cases o with
  | failure => simp [isAvailable]
  | success sm => simp [isAvailable]

/-- C8 (counterexample): the claim fails at the input `"constructor"`:
`styles['constructor']` finds `Object.prototype.constructor` on the
prototype chain, a truthy function value, so
`styles[confidence] || styles.low` returns that inherited value — not
the low-confidence styling object. -/
theorem getConfidenceStyling_proto_counterexample :
    getConfidenceStyling (some "constructor") ≠
        StylingValue.style lowStyle ∧
      getConfidenceStyling (some "constructor") =
        StylingValue.inherited "constructor" := by
  constructor
  · decide
  · decide

/-- C8 (amended): `getConfidenceStyling` is total on all input strings;
each of the three valid tiers returns that tier's distinct styling
object; an input naming a property inherited from `Object.prototype`
(`constructor`, `toString`, `__proto__`, ...) returns that truthy
inherited value; and every other input (including `undefined`, modelled
as `none`, and arbitrary strings) returns the low-confidence styling
object. -/
theorem getConfidenceStyling_lookup_total (confidence : Option String) :
    (confidence ≠ some "high" → confidence ≠ some "medium" →
      confidence ≠ some "low" →
      (∀ k ∈ objectPrototypeKeys, confidence ≠ some k) →
      getConfidenceStyling confidence = StylingValue.style lowStyle) ∧
    (∀ k ∈ objectPrototypeKeys,
      getConfidenceStyling (some k) = StylingValue.inherited k) ∧
    getConfidenceStyling (some "high") = StylingValue.style highStyle ∧
    getConfidenceStyling (some "medium") = StylingValue.style mediumStyle ∧
    getConfidenceStyling (some "low") = StylingValue.style lowStyle ∧
    highStyle ≠ mediumStyle ∧ highStyle ≠ lowStyle ∧
      mediumStyle ≠ lowStyle := by
  refine ⟨?_, by decide, rfl, rfl, rfl, by decide, by decide, by decide⟩
  intro h1 h2 h3 h4
  cases confidence with
  | none => decide
  | some s =>
    have hs1 : ¬(s = "high") := fun e => h1 (by rw [e])
    have hs2 : ¬(s = "medium") := fun e => h2 (by rw [e])
    have hs3 : ¬(s = "low") := fun e => h3 (by rw [e])
    have hs4 : ¬(s ∈ objectPrototypeKeys) := fun hm => h4 s hm rfl
    simp [getConfidenceStyling, jsPropertyKey, stylesLookup,
      hs1, hs2, hs3, hs4]

/-- C8 witness: the unknown tier `some "banana"` gets the low styling,
while the prototype-chain key `"constructor"` yields the inherited
value. -/
theorem getConfidenceStyling_lookup_total_witness :
    getConfidenceStyling (some "banana") = StylingValue.style lowStyle ∧
      getConfidenceStyling (some "constructor") =
        StylingValue.inherited "constructor" :=
  ⟨(getConfidenceStyling_lookup_total (some "banana")).1 (by decide)
      (by decide) (by decide) (by decide),
    (getConfidenceStyling_lookup_total (some "banana")).2.1
      "constructor" (by decide)⟩

/-- C9: the output of `generateSuggestions` contains an
`'Also try: ...'` suggestion exactly when the synonyms list is
non-empty, and in that case the suggestion joins exactly the first
(at most 3) synonyms in their original order — a suggestion source
keyed by the synonyms, not by intent or keyword count. -/
theorem generateSuggestions_alsoTry (analysis : QueryAnalysis) :
    ((∃ rest, "Also try: " ++ rest ∈ generateSuggestions analysis) ↔
      analysis.synonyms ≠ []) ∧
    (analysis.synonyms ≠ [] →
      "Also try: " ++ jsJoin ", " (analysis.synonyms.take 3) ∈
        generateSuggestions analysis) := by
  have hmem : analysis.synonyms ≠ [] →
      "Also try: " ++ jsJoin ", " (analysis.synonyms.take 3) ∈
        generateSuggestions analysis := by
    intro hs
    rw [generateSuggestions_eq]
    refine List.mem_append.mpr (Or.inl (List.mem_append.mpr (Or.inr ?_)))
    rw [if_pos (by simpa [List.length_pos] using hs)]
    exact List.mem_singleton.mpr rfl
  refine ⟨⟨?_, fun hs => ⟨_, hmem hs⟩⟩, hmem⟩
  rintro ⟨rest, hr⟩
  rw [generateSuggestions_eq] at hr
  simp only [List.mem_append] at hr
  rcases hr with (hr | hr) | hr
  · exfalso
    split_ifs at hr
    · exact alsoTry_ne_of_head_T rest _ (by decide)
        (List.mem_singleton.mp hr)
    · exact List.not_mem_nil _ hr
  · intro hs
    rw [if_neg (by simp [hs])] at hr
    exact List.not_mem_nil _ hr
  · exact absurd hr (alsoTry_not_mem_intentSuggestions rest analysis.intent)

/-- C9 witness: with four synonyms, the output contains `Also try:`
followed by exactly the first three, comma-joined, in order. -/
theorem generateSuggestions_alsoTry_witness :
    "Also try: " ++
        jsJoin ", "
          ((["guardianship", "care", "supervision", "custody"] :
            List String).take 3) ∈
      generateSuggestions
        ⟨"custody", ["custody"],
          ["guardianship", "care", "supervision", "custody"], [],
          "general", []⟩ :=
  (generateSuggestions_alsoTry
      ⟨"custody", ["custody"],
        ["guardianship", "care", "supervision", "custody"], [],
        "general", []⟩).2 (by decide)

/-- C10: the `ClauseLocationStep` query-analysis effect issues no
`analyzeQuery` or `semanticSearch` call when the query has length 3 or
less, and whenever it issues any call the query is truthy (non-empty)
and strictly longer than 3 characters. -/
theorem clauseLocationAnalysisCalls_guard (q : String)
    (cs : List Clause) :
    (q.length ≤ 3 → clauseLocationAnalysisCalls q cs = []) ∧
    (clauseLocationAnalysisCalls q cs ≠ [] →
      q ≠ "" ∧ q.length > 3) := by
  constructor
  · intro h
    unfold clauseLocationAnalysisCalls
    rw [if_neg]
    rintro ⟨-, hlen⟩
    omega
  · intro h
    by_contra hng
    rw [clauseLocationAnalysisCalls.eq_def, if_neg hng] at h
    exact h rfl

/-- C10 witness: the three-character query `"law"` produces no backend
call even with clauses present. -/
theorem clauseLocationAnalysisCalls_guard_witness :
    clauseLocationAnalysisCalls "law" [⟨"Custody", "text"⟩] = [] :=
  (clauseLocationAnalysisCalls_guard "law" [⟨"Custody", "text"⟩]).1
    (by decide)

end LegalAI
